import Mathlib

/-!
Shallow embedding of the anomaly-reporting dashboard `app.py` (a single
Streamlit script).  Tables loaded with `pandas.read_csv` are modelled as
lists of rows over named columns; cell values are integers, strings or the
missing value NaN.  Each computation of the script (traffic summary,
accuracy analysis, confusion matrix, insight extraction, alert rendering)
is translated into an executable Lean definition, and the rendering pass is
modelled as the ordered list of display items the script emits together
with its outcome (completed, stopped at validation, or crashed on an
uncaught exception).
-/

namespace RiskApp

/-- Cell value of a loaded table: an integer, a string, or the missing
value (pandas NaN). -/
inductive Value where
  | int (n : Int)
  | str (s : String)
  | na
deriving DecidableEq, Repr

/-- Row of a table: an association list from column names to values.  A
well-formed row carries exactly the columns of its table, in order. -/
abbrev Row := List (String × Value)

/-- In-memory table, as produced by `pandas.read_csv`: a list of column
names and a list of rows. -/
structure Table where
  cols : List String
  rows : List Row
deriving DecidableEq, Repr

/-- Well-formed table: every row carries exactly the table columns. -/
def Table.WF (t : Table) : Prop := ∀ r ∈ t.rows, r.map Prod.fst = t.cols

instance tableWFDecidable (t : Table) : Decidable t.WF :=
  inferInstanceAs (Decidable (∀ r ∈ t.rows, r.map Prod.fst = t.cols))

/-- The empty table `pd.DataFrame()`: zero rows, no defined columns. -/
def emptyTable : Table := { cols := [], rows := [] }

/-- Cell access `row[c]`: the value stored under column `c`, NaN when the
row has no such key. -/
def getCell (r : Row) (c : String) : Value := ((r.lookup c).getD Value.na)

/-- Column extraction `df[c]`: the list of cell values of column `c`. -/
def col (t : Table) (c : String) : List Value := t.rows.map (fun r => getCell r c)

/-- Outcome of the external `pd.read_csv` call: either a parsed table or
an exception (file not found, malformed content, permission error). -/
inductive LoadOutcome where
  | ok (t : Table)
  | failure (msg : String)

/-- `load_csv` (app.py lines 13-18): returns the parsed table, and on any
exception returns `pd.DataFrame()` instead of propagating it. -/
def load_csv : LoadOutcome → Table
  | .ok t => t
  | .failure _ => emptyTable

/-- Sum of the 0/1 indicator column `(df[c] == 1)`, as computed by
`(df[c] == 1).sum()`. -/
def indicatorSum (vs : List Value) : Nat :=
  (vs.map (fun v => if v == Value.int 1 then 1 else 0)).sum

/-- `total = len(df_full)` (app.py line 46). -/
def total (full : Table) : Nat := full.rows.length

/-- `total_anoms` (app.py lines 48-54): tiered anomaly count.  If a
`predicted` column exists, count rows with `predicted == 1`; else if a
`classification` column exists, count rows with `classification == 1`;
else fall back to the row count of the explanations table. -/
def total_anoms (full expl : Table) : Nat :=
  if full.cols.contains "predicted" then
    indicatorSum (col full "predicted")
  else if full.cols.contains "classification" then
    indicatorSum (col full "classification")
  else
    expl.rows.length

/-- `total_norms = total - total_anoms` (app.py line 56); Python ints may
go negative, so the result lives in `Int`. -/
def total_norms (full expl : Table) : Int :=
  (total full : Int) - (total_anoms full expl : Int)

/-- `anom_rate = (total_anoms / total * 100) if total > 0 else 0`
(app.py line 57), over exact rationals. -/
def anom_rate (full expl : Table) : ℚ :=
  if 0 < total full then (total_anoms full expl : ℚ) / (total full : ℚ) * 100 else 0

/-- `acc_df` (app.py line 91): the `(true_label, predicted)` pairs of the
predictions table, in row order. -/
def acc_pairs (pred : Table) : List (Value × Value) :=
  pred.rows.map (fun r => (getCell r "true_label", getCell r "predicted"))

/-- `accuracy = (acc_df["true_label"] == acc_df["predicted"]).mean() * 100`
(app.py line 94): the mean of the boolean match column, times 100. -/
def accuracy (pred : Table) : ℚ :=
  ((acc_pairs pred).map (fun p => if p.1 == p.2 then (1 : ℚ) else 0)).sum
    / ((acc_pairs pred).length : ℚ) * 100

/-- Guard of the accuracy section (app.py line 90): predictions non-empty
with both `true_label` and `predicted` columns. -/
def predReady (pred : Table) : Bool :=
  !pred.rows.isEmpty && pred.cols.contains "true_label" && pred.cols.contains "predicted"

/-- `acc_df.sample(min(2000, len(acc_df)))` (app.py line 99): the random
draw is modelled by a permutation `perm` of the row indices supplied from
outside; the sample keeps the first `min 2000 n` drawn indices. -/
def sampleRows (pred : Table) (perm : List Nat) : List (Value × Value) :=
  (perm.take (min 2000 pred.rows.length)).map
    (fun i => (acc_pairs pred).getD i (Value.na, Value.na))

/-- Ordering used by `numpy.unique` on label values (ints by value,
strings lexicographically; NaN sorts last). -/
def valLe (a b : Value) : Bool :=
  match a, b with
  | .int m, .int n => m ≤ n
  | .int _, _ => true
  | .str _, .int _ => false
  | .str s, .str t => s ≤ t
  | .str _, .na => true
  | .na, .na => true
  | .na, _ => false

/-- Insertion step of sorting label values by `valLe`. -/
def insertVal (a : Value) : List Value → List Value
  | [] => [a]
  | b :: l => if valLe a b then a :: b :: l else b :: insertVal a l

/-- Insertion sort of label values by `valLe`. -/
def sortVals : List Value → List Value
  | [] => []
  | a :: l => insertVal a (sortVals l)

/-- Distinct values of a list keeping the first occurrence of each, in
order of first appearance (the order in which the pandas hash table
returns unique keys). -/
def uniqFirstAux (seen : List Value) : List Value → List Value
  | [] => []
  | v :: vs =>
    if seen.contains v then uniqFirstAux seen vs
    else v :: uniqFirstAux (v :: seen) vs

/-- Distinct values in order of first appearance. -/
def uniqFirst (vs : List Value) : List Value := uniqFirstAux [] vs

/-- `sklearn.utils.multiclass.unique_labels(y_true, y_pred)`: the sorted
distinct values occurring in either column. -/
def cmLabels (pred : Table) : List Value :=
  sortVals (uniqFirst (col pred "true_label" ++ col pred "predicted"))

/-- `sklearn.metrics.confusion_matrix(y_true, y_pred)` with inferred
labels: entry `(i, j)` counts the rows whose true label is the `i`-th
inferred label and whose predicted label is the `j`-th. -/
def confusion_matrix (pred : Table) : List (List Nat) :=
  (cmLabels pred).map (fun a =>
    (cmLabels pred).map (fun b =>
      (acc_pairs pred).countP (fun p => p.1 == a && p.2 == b)))

/-- `cm_df` (app.py lines 112-116): labelling the matrix with the two
hard-coded index/column names succeeds only when the inferred matrix is
2 by 2; otherwise `pd.DataFrame` raises a shape mismatch. -/
def cm_df (pred : Table) : Option (List (List Nat)) :=
  if (cmLabels pred).length = 2 then some (confusion_matrix pred) else none

/-- Values that are not NaN (`Series.value_counts` drops NaN by default). -/
def nonNA (vs : List Value) : List Value := vs.filter (fun v => !(v == Value.na))

/-- Each distinct non-NaN value paired with its frequency, in order of
first appearance. -/
def withCounts (vs : List Value) : List (Value × Nat) :=
  (uniqFirst (nonNA vs)).map (fun v => (v, (nonNA vs).countP (fun w => w == v)))

/-- Insertion step of an insertion sort by count, descending. -/
def insertDesc (p : Value × Nat) : List (Value × Nat) → List (Value × Nat)
  | [] => [p]
  | q :: qs => if q.2 ≤ p.2 then p :: q :: qs else q :: insertDesc p qs

/-- Insertion sort by count, descending.  The program sorts with
`Series.sort_values(ascending=False)`, i.e. numpy quicksort, whose order
among equal counts is unspecified; this definition is one deterministic
refinement of that sort, and no theorem in this file depends on the
relative order of equal counts. -/
def sortDesc : List (Value × Nat) → List (Value × Nat)
  | [] => []
  | p :: ps => insertDesc p (sortDesc ps)

/-- `Series.value_counts()`: distinct non-NaN values with frequencies,
sorted by count descending.  Which order equal counts take is left
unspecified by pandas (numpy quicksort); `sortDesc` fixes one refinement
of it, and theorems below use only which values occur, never tie order. -/
def value_counts (vs : List Value) : List (Value × Nat) := sortDesc (withCounts vs)

/-- `value_counts().head(k).index.tolist()`: the first `k` values of the
frequency ranking. -/
def topK (k : Nat) (vs : List Value) : List Value :=
  ((value_counts vs).take k).map Prod.fst

/-- `top_threats` (app.py line 139): top 3 values of the `reasons` column. -/
def top_threats (expl : Table) : List Value := topK 3 (col expl "reasons")

/-- `top_ips` (app.py line 144): top 3 values of the `host` column. -/
def top_ips (expl : Table) : List Value := topK 3 (col expl "host")

/-- Rendering of a cell value inside a Python f-string: integers and
strings print themselves, NaN prints as `nan`. -/
def fmtValue : Value → String
  | .int n => toString n
  | .str s => s
  | .na => "nan"

/-- Whether a value is a Python string. -/
def isStrVal : Value → Bool
  | .str _ => true
  | _ => false

/-- `", ".join(vs)` (app.py line 140): joining succeeds only when every
element is a string; a non-string element raises `TypeError`. -/
def joinVals (vs : List Value) : Option String :=
  if vs.all isStrVal then
    some (String.intercalate ", " (vs.map fmtValue))
  else none

/-- `pd.to_datetime(v, errors="coerce")`: timestamps are modelled as
non-negative integers (seconds); any other value coerces to NaT. -/
def parseTs : Value → Option Nat
  | .int n => if 0 ≤ n then some n.toNat else none
  | _ => none

/-- The successfully parsed timestamps of the `timestamp` column, in row
order. -/
def parsedTimes (expl : Table) : List Nat :=
  (col expl "timestamp").filterMap parseTs

/-- Start of the 1-hour bucket containing second `t`. -/
def hourOf (t : Nat) : Nat := t / 3600

/-- `resample("H").size()` over the parsed timestamps: one bucket per hour
from the earliest to the latest parsed time (intermediate empty hours
included), each with its row count. -/
def hourlyBuckets (t : Nat) (ts : List Nat) : List (Nat × Nat) :=
  let hs := (t :: ts).map hourOf
  let lo := ts.foldl (fun m x => min m (hourOf x)) (hourOf t)
  let hi := ts.foldl (fun m x => max m (hourOf x)) (hourOf t)
  (List.range (hi + 1 - lo)).map (fun i => (lo + i, hs.countP (fun h => h == lo + i)))

/-- `df_expl.set_index("timestamp").resample("H").size()` (app.py line
150).  An empty index yields an empty series; a non-empty index in which
every value coerced to NaT makes pandas derive the bin range from NaT
edges and `date_range` raises `ValueError`. -/
def hourly (expl : Table) : Except String (List (Nat × Nat)) :=
  if (col expl "timestamp").isEmpty then .ok []
  else
    match parsedTimes expl with
    | [] => .error "Neither start nor end can be NaT"
    | t :: ts => .ok (hourlyBuckets t ts)

/-- `Series.idxmax()`: the key of the first entry holding the maximum
value, `none` on an empty series. -/
def idxmax : List (Nat × Nat) → Option Nat
  | [] => none
  | p :: ps => some ((ps.foldl (fun b q => if b.2 < q.2 then q else b) p).1)

/-- `peak` (app.py lines 151-153): the start of the hour bucket with the
maximum count, when any bucket exists. -/
def peakWindow (expl : Table) : Except String (Option Nat) :=
  (hourly expl).map idxmax

/-- Display item emitted by the script: one Streamlit call.  Metric
values are carried as exact rationals, the pie chart carries its two
counts, the scatter its plotted pairs and the heatmap its matrix. -/
inductive Item where
  | title (s : String)
  | caption (s : String)
  | errorBanner (s : String)
  | warningBanner (s : String)
  | infoBanner (s : String)
  | successBanner (s : String)
  | subheader (s : String)
  | metric (label : String) (value : ℚ)
  | pie (normals anoms : Int)
  | scatter (pts : List (Value × Value))
  | heatmap (m : List (List Nat))
  | text (s : String)
  | metaLine (s : String)
deriving DecidableEq, Repr

/-- How a rendering pass ends: normally, stopped by `st.stop()` at
validation, or killed by an uncaught exception. -/
inductive Outcome where
  | completed
  | stopped
  | crashed
deriving DecidableEq, Repr

/-- Whether a value is an integer (a numeric Python cell in this value
universe). -/
def isIntVal : Value → Bool
  | .int _ => true
  | _ => false

/-- Success condition of the `px.scatter(..., trendline="ols")` call
(app.py lines 98-106): plotly rejects non-numeric trendline data, so any
string label value raises before the chart is emitted; the OLS fit also
needs at least one row in which neither coordinate is NaN (plotly drops
non-finite points before fitting, and a zero-point fit raises). -/
def olsOk (pred : Table) : Bool :=
  (col pred "true_label" ++ col pred "predicted").all (fun v => !(isStrVal v))
  && (acc_pairs pred).any (fun p => !(p.1 == Value.na) && !(p.2 == Value.na))

/-- Success condition of the sklearn target validation inside
`confusion_matrix` (app.py line 111): a NaN in either label column makes
the target check raise before any matrix is produced. -/
def sklearnOk (pred : Table) : Bool :=
  (col pred "true_label" ++ col pred "predicted").all (fun v => !(v == Value.na))

/-- Every label value of the predictions table is an integer. -/
def accLabelsInt (pred : Table) : Bool :=
  (col pred "true_label" ++ col pred "predicted").all isIntVal

/-- Accuracy section (app.py lines 90-127): when the predictions table is
ready, emit the accuracy metric; then the OLS scatter, which raises on
string label values (or when no fully finite pair exists) before the
chart appears; then the confusion matrix, whose sklearn target check
raises on NaN labels and whose hard-coded 2 by 2 labelling fails when the
inferred label count is not 2 (flag `false` = crash at that point).
Otherwise emit the warning banner. -/
def accSection (pred : Table) (perm : List Nat) : List Item × Bool :=
  if predReady pred then
    if olsOk pred = false then
      ([Item.metric "Model Accuracy" (accuracy pred)], false)
    else if sklearnOk pred = false then
      ([Item.metric "Model Accuracy" (accuracy pred),
        Item.scatter (sampleRows pred perm)], false)
    else
      match cm_df pred with
      | some m =>
        ([Item.metric "Model Accuracy" (accuracy pred),
          Item.scatter (sampleRows pred perm), Item.heatmap m], true)
      | none =>
        ([Item.metric "Model Accuracy" (accuracy pred),
          Item.scatter (sampleRows pred perm)], false)
  else
    ([Item.warningBanner "Prediction dataset not loaded or missing true_label / predicted columns."], true)

/-- Insights section body (app.py lines 136-155): threat line from
`reasons` (joining non-string values raises), sources line from `host`,
peak-hour line from `timestamp` (raises when a non-empty column parses to
nothing); flag `false` = crash. -/
def insightsSection (expl : Table) : List Item × Bool :=
  if expl.rows.isEmpty then
    ([Item.infoBanner "No GenAI explanations available yet."], true)
  else
    let reasonsPart : List Item × Bool :=
      if expl.cols.contains "reasons" then
        match joinVals (top_threats expl) with
        | some s => ([Item.text ("Most common threats detected: " ++ s)], true)
        | none => ([], false)
      else ([], true)
    if reasonsPart.2 = false then reasonsPart
    else
      let hostPart : List Item :=
        if expl.cols.contains "host" then
          [Item.text ("Top suspicious sources: " ++
            String.intercalate ", " ((top_ips expl).map fmtValue))]
        else []
      let tsPart : List Item × Bool :=
        if expl.cols.contains "timestamp" then
          match hourly expl with
          | .error _ => ([], false)
          | .ok hs =>
            (match idxmax hs with
             | some h => [Item.text ("Peak suspicious activity at: " ++ toString h)]
             | none => [], true)
        else ([], true)
      (reasonsPart.1 ++ hostPart ++ tsPart.1, tsPart.2)

/-- `row.get(c, d)` rendered into the card text: the stored value printed
as Python would, or the default when the row has no such key. -/
def rowGet (r : Row) (c : String) (d : String) : String :=
  match r.lookup c with
  | some v => fmtValue v
  | none => d

/-- Headline of an alert card (app.py line 181):
`row.get("summary", "Suspicious request")`. -/
def headlineOf (r : Row) : String := rowGet r "summary" "Suspicious request"

/-- One alert card (app.py lines 181-186). -/
def alertCard (r : Row) : List Item :=
  [Item.errorBanner (headlineOf r),
   Item.text ("Reason: " ++ rowGet r "reasons" "-"),
   Item.text ("Impact: " ++ rowGet r "impact" "-"),
   Item.text ("Suggested Action: " ++ rowGet r "suggested_action" "-"),
   Item.metaLine ("Method: " ++ rowGet r "Method" "-" ++ " | URL: " ++ rowGet r "URL" "-"
     ++ " | User-Agent: " ++ rowGet r "User-Agent" "-"),
   Item.text "---"]

/-- Sample alerts section body (app.py lines 178-188): one card per row of
`df_expl.head(5)`, in file order, or the success banner when the table is
empty. -/
def alertsSection (expl : Table) : List Item :=
  if expl.rows.isEmpty then [Item.successBanner "No anomaly explanations to show."]
  else (expl.rows.take 5).flatMap alertCard

/-- Extracts the headline of an alert card item. -/
def alertHead : Item → Option String
  | .errorBanner s => some s
  | _ => none

/-- Whether an item is an alert-card headline banner. -/
def isAlertHead (i : Item) : Bool := (alertHead i).isSome

/-- The whole rendering pass of app.py, in emission order: page header,
validation (empty primary table stops the run), warnings for missing
secondary tables, headline metrics, traffic-mix pie, accuracy section,
insights section, static recommended actions, sample alerts.  A crash in
the accuracy or insights section truncates the output there. -/
def render (full expl pred : Table) (perm : List Nat) : List Item × Outcome :=
  let header := [Item.title "MSME Cybersecurity Insights",
                 Item.caption "Business-friendly security insights based on anomaly detection + GenAI explanations"]
  if full.rows.isEmpty then
    (header ++ [Item.errorBanner "Could not load full dataset."], Outcome.stopped)
  else
    let warns :=
      (if expl.rows.isEmpty then [Item.warningBanner "No explained anomalies file loaded. Some insights may be missing."] else [])
      ++ (if pred.rows.isEmpty then [Item.warningBanner "No prediction results file loaded. Accuracy analysis may be missing."] else [])
    let metrics := [Item.metric "Total Requests" (total full : ℚ),
                    Item.metric "Detected Anomalies" (total_anoms full expl : ℚ),
                    Item.metric "Anomaly Rate" (anom_rate full expl)]
    let mix := [Item.subheader "Traffic Mix",
                Item.pie (total_norms full expl) (total_anoms full expl : Int)]
    let base := header ++ warns ++ metrics ++ mix
      ++ [Item.subheader "Model Accuracy & Regression Plot"]
    let acc := accSection pred perm
    if acc.2 = false then (base ++ acc.1, Outcome.crashed)
    else
      let base2 := base ++ acc.1 ++ [Item.subheader "Key Insights (From Explained Anomalies)"]
      let ins := insightsSection expl
      if ins.2 = false then (base2 ++ ins.1, Outcome.crashed)
      else
        (base2 ++ ins.1
          ++ [Item.subheader "Recommended Actions", Item.text "static recommended actions"]
          ++ [Item.subheader "Sample Alerts (Top 5)"]
          ++ alertsSection expl, Outcome.completed)

/-- Predictions table of the spec example `[(0,0),(1,1),(1,0),(0,0)]`. -/
def predEx : Table :=
  { cols := ["true_label", "predicted"],
    rows := [[("true_label", .int 0), ("predicted", .int 0)],
             [("true_label", .int 1), ("predicted", .int 1)],
             [("true_label", .int 1), ("predicted", .int 0)],
             [("true_label", .int 0), ("predicted", .int 0)]] }

/-- Predictions table of the spec example `[(0,0),(0,1),(1,0),(1,1)]`. -/
def predCM : Table :=
  { cols := ["true_label", "predicted"],
    rows := [[("true_label", .int 0), ("predicted", .int 0)],
             [("true_label", .int 0), ("predicted", .int 1)],
             [("true_label", .int 1), ("predicted", .int 0)],
             [("true_label", .int 1), ("predicted", .int 1)]] }

/-- Predictions table whose only row is `(0,0)`: a single distinct label. -/
def predSingle : Table :=
  { cols := ["true_label", "predicted"],
    rows := [[("true_label", .int 0), ("predicted", .int 0)]] }

/-- One-row primary table with a `classification` column. -/
def full0 : Table :=
  { cols := ["classification"], rows := [[("classification", .int 0)]] }

/-- One-row primary table with neither `predicted` nor `classification`. -/
def fullNoCols : Table :=
  { cols := ["Method"], rows := [[("Method", .str "GET")]] }

/-- Primary table holding both a `predicted` and a `classification`
column, disagreeing on every row. -/
def fullBoth : Table :=
  { cols := ["predicted", "classification"],
    rows := [[("predicted", .int 1), ("classification", .int 0)],
             [("predicted", .int 0), ("classification", .int 1)],
             [("predicted", .int 0), ("classification", .int 1)]] }

/-- Explanations table whose single timestamp value is unparseable. -/
def explBadTs : Table :=
  { cols := ["timestamp"], rows := [[("timestamp", .str "garbage")]] }

/-- Explanations table with 3 timestamps in one hour and 7 in the next. -/
def expl37 : Table :=
  { cols := ["timestamp"],
    rows := ([0, 10, 20].map (fun t => [("timestamp", Value.int t)]))
         ++ ([3600, 3610, 3620, 3630, 3640, 3650, 3660].map
              (fun t => [("timestamp", Value.int t)])) }

/-- Explanations table whose `reasons` values are integers, not strings. -/
def explIntReasons : Table :=
  { cols := ["reasons"], rows := [[("reasons", .int 5)]] }

/-- Explanations table whose single row has an empty `summary` value. -/
def explEmptySummary : Table :=
  { cols := ["summary"], rows := [[("summary", .str "")]] }

/-- Explanations table with reasons `x, x, y, y, z` and three hosts. -/
def explXY : Table :=
  { cols := ["reasons", "host"],
    rows := [[("reasons", .str "x"), ("host", .str "h1")],
             [("reasons", .str "x"), ("host", .str "h1")],
             [("reasons", .str "y"), ("host", .str "h2")],
             [("reasons", .str "y"), ("host", .str "h2")],
             [("reasons", .str "z"), ("host", .str "h3")]] }

theorem indicatorSum_eq_countP (vs : List Value) :
    indicatorSum vs = vs.countP (fun v => v == Value.int 1) := by
  induction vs with
  | nil => rfl
  | cons v vs ih =>
    simp only [indicatorSum, List.map_cons, List.sum_cons, List.countP_cons] at ih ⊢
    rw [ih]
    cases h : (v == Value.int 1)
    · simp [h]
    · simp [h]
      omega

theorem col_countP (t : Table) (c : String) (p : Value → Bool) :
    (col t c).countP p = t.rows.countP (fun r => p (getCell r c)) := by
  simp [col, List.countP_map, Function.comp_def]

/-- C1: anomaly-count tiering is deterministic and order-respecting: with
a `predicted` column the count is the number of rows whose `predicted`
cell equals 1 — also when a `classification` column is present as well;
with only a `classification` column it is the number of rows whose
`classification` cell equals 1; with neither it is the row count of the
explanations table. -/
theorem C1_anomaly_tiering (full expl : Table) :
    ("predicted" ∈ full.cols →
      total_anoms full expl
        = full.rows.countP (fun r => getCell r "predicted" == Value.int 1))
    ∧ ("predicted" ∉ full.cols → "classification" ∈ full.cols →
      total_anoms full expl
        = full.rows.countP (fun r => getCell r "classification" == Value.int 1))
    ∧ ("predicted" ∉ full.cols → "classification" ∉ full.cols →
      total_anoms full expl = expl.rows.length)
    ∧ ("predicted" ∈ full.cols → "classification" ∈ full.cols →
      total_anoms full expl
        = full.rows.countP (fun r => getCell r "predicted" == Value.int 1)) := by
  refine ⟨fun hp => ?_, fun hp hc => ?_, fun hp hc => ?_, fun hp _ => ?_⟩
  · simp [total_anoms, hp, indicatorSum_eq_countP, col_countP]
  · simp [total_anoms, hp, hc, indicatorSum_eq_countP, col_countP]
  · simp [total_anoms, hp, hc]
  · simp [total_anoms, hp, indicatorSum_eq_countP, col_countP]

/-- Witness for C1 on a table carrying both columns: the `predicted`
column wins even though `classification` disagrees everywhere. -/
theorem C1_anomaly_tiering_witness :
    "predicted" ∈ fullBoth.cols
    ∧ "classification" ∈ fullBoth.cols
    ∧ total_anoms fullBoth emptyTable
        = fullBoth.rows.countP (fun r => getCell r "predicted" == Value.int 1)
    ∧ total_anoms fullBoth emptyTable = 1 :=
  ⟨by decide, by decide,
   (C1_anomaly_tiering fullBoth emptyTable).2.2.2 (by decide) (by decide), by decide⟩

/-- C2: the summary outputs satisfy `total` = row count of the primary
table, `anomalies + normals = total`, `rate = anomalies / total * 100`
when `total > 0`, and `rate = 0` when `total = 0`; the rate is a total
rational-valued function, so no division error, NaN or Inf can occur. -/
theorem C2_summary_identities (full expl : Table) :
    total full = full.rows.length
    ∧ (total_anoms full expl : Int) + total_norms full expl = (total full : Int)
    ∧ (0 < total full →
        anom_rate full expl = (total_anoms full expl : ℚ) / (total full : ℚ) * 100)
    ∧ (total full = 0 → anom_rate full expl = 0) := by
  refine ⟨rfl, by simp [total_norms], fun h => ?_, fun h => ?_⟩
  · simp [anom_rate, h]
  · simp [anom_rate, h]

/-- Witness for C2 at a one-row primary table. -/
theorem C2_summary_identities_witness :
    0 < total full0
    ∧ anom_rate full0 emptyTable
        = (total_anoms full0 emptyTable : ℚ) / (total full0 : ℚ) * 100
    ∧ (total_anoms full0 emptyTable : Int) + total_norms full0 emptyTable
        = (total full0 : Int) :=
  ⟨by decide, (C2_summary_identities full0 emptyTable).2.2.1 (by decide),
   (C2_summary_identities full0 emptyTable).2.1⟩

/-- C6: the loader is a total function: a successful parse is returned
as-is, and every failure outcome yields the empty table with zero rows
and no defined columns instead of a propagated exception. -/
theorem C6_loader_never_raises :
    (∀ msg, load_csv (LoadOutcome.failure msg) = emptyTable
      ∧ (load_csv (LoadOutcome.failure msg)).rows.length = 0
      ∧ (load_csv (LoadOutcome.failure msg)).cols = [])
    ∧ (∀ t, load_csv (LoadOutcome.ok t) = t) :=
  ⟨fun _ => ⟨rfl, rfl, rfl⟩, fun _ => rfl⟩

theorem sum_ite_one_eq_countP (l : List (Value × Value)) :
    (l.map (fun p => if p.1 == p.2 then (1 : ℚ) else 0)).sum
      = (l.countP (fun p => p.1 == p.2) : ℚ) := by
  induction l with
  | nil => simp
  | cons p l ih =>
    simp only [List.map_cons, List.sum_cons, List.countP_cons, ih]
    cases h : (p.1 == p.2)
    · simp [h]
    · simp [h]
      ring

/-- C3: the reported accuracy is the exact-match fraction of the full
predictions table times 100 (75 on the spec example), it is what the
accuracy section displays whatever random sample the scatter plot draws,
and the scatter sample holds exactly `min 2000 n` rows. -/
theorem C3_accuracy_analysis (pred : Table) (perm₁ perm₂ : List Nat)
    (hne : pred.rows ≠ []) (h1 : "true_label" ∈ pred.cols)
    (h2 : "predicted" ∈ pred.cols) :
    accuracy pred
      = ((acc_pairs pred).countP (fun p => p.1 == p.2) : ℚ) / (pred.rows.length : ℚ) * 100
    ∧ (accSection pred perm₁).1.head? = some (Item.metric "Model Accuracy" (accuracy pred))
    ∧ (accSection pred perm₁).1.head? = (accSection pred perm₂).1.head?
    ∧ (perm₁.Perm (List.range pred.rows.length) →
        (sampleRows pred perm₁).length = min 2000 pred.rows.length)
    ∧ accuracy predEx = 75 := by
  have hready : predReady pred = true := by
    simp [predReady, hne, h1, h2]
  have hhead : ∀ perm : List Nat,
      (accSection pred perm).1.head? = some (Item.metric "Model Accuracy" (accuracy pred)) := by
    intro perm
    unfold accSection
    simp only [hready, if_true]
    repeat' split
    all_goals rfl
  refine ⟨?_, hhead perm₁, (hhead perm₁).trans (hhead perm₂).symm, fun hp => ?_, ?_⟩
  · unfold accuracy
    rw [sum_ite_one_eq_countP]
    simp [acc_pairs]
  · have hl : perm₁.length = pred.rows.length := by
      simpa using hp.length_eq
    simp [sampleRows, hl]
  · have hpairs : acc_pairs predEx
        = [(.int 0, .int 0), (.int 1, .int 1), (.int 1, .int 0), (.int 0, .int 0)] := by
      decide
    simp [accuracy, hpairs, beq_iff_eq]
    norm_num

/-- Witness for C3 at the spec example table with two different draws. -/
theorem C3_accuracy_analysis_witness :
    predEx.rows ≠ [] ∧ "true_label" ∈ predEx.cols ∧ "predicted" ∈ predEx.cols
    ∧ [0, 1, 2, 3].Perm (List.range predEx.rows.length)
    ∧ (sampleRows predEx [0, 1, 2, 3]).length = min 2000 predEx.rows.length
    ∧ accuracy predEx = 75 :=
  ⟨by decide, by decide, by decide, by decide,
   (C3_accuracy_analysis predEx [0, 1, 2, 3] [3, 2, 1, 0]
      (by decide) (by decide) (by decide)).2.2.2.1 (by decide),
   (C3_accuracy_analysis predEx [0, 1, 2, 3] [3, 2, 1, 0]
      (by decide) (by decide) (by decide)).2.2.2.2⟩

/-- C4: on the spec example with both labels present, the inferred label
order is 0 before 1 and the matrix is the expected 2 by 2 co-occurrence
table; but the labels are inferred from the data, so a table whose values
hold a single distinct label produces a 1 by 1 matrix and the hard-coded
2 by 2 labelling of `cm_df` fails (the accuracy section crashes instead
of rendering a 2 by 2 matrix). -/
theorem C4_confusion_matrix_shape :
    confusion_matrix predCM = [[1, 1], [1, 1]]
    ∧ cm_df predCM = some [[1, 1], [1, 1]]
    ∧ cmLabels predCM = [Value.int 0, Value.int 1]
    ∧ confusion_matrix predSingle = [[1]]
    ∧ cm_df predSingle = none
    ∧ (accSection predSingle []).2 = false := by
  decide

theorem insertDesc_perm (p : Value × Nat) (l : List (Value × Nat)) :
    List.Perm (insertDesc p l) (p :: l) := by
  induction l with
  | nil => exact List.Perm.refl _
  | cons q qs ih =>
    by_cases h : q.2 ≤ p.2
    · simp [insertDesc, h]
    · simp only [insertDesc, if_neg h]
      exact (ih.cons q).trans (List.Perm.swap p q qs)

theorem sortDesc_perm (l : List (Value × Nat)) : List.Perm (sortDesc l) l := by
  induction l with
  | nil => exact List.Perm.refl _
  | cons p ps ih => exact (insertDesc_perm p (sortDesc ps)).trans (ih.cons p)

theorem uniqFirstAux_mem (seen : List Value) (l : List Value) (x : Value) :
    x ∈ uniqFirstAux seen l ↔ x ∈ l ∧ x ∉ seen := by
  induction l generalizing seen with
  | nil => simp [uniqFirstAux]
  | cons v vs ih =>
    by_cases h : seen.contains v = true
    · have hv : v ∈ seen := by simpa using h
      simp only [uniqFirstAux, if_pos h, ih, List.mem_cons]
      constructor
      · rintro ⟨hx, hs⟩
        exact ⟨Or.inr hx, hs⟩
      · rintro ⟨rfl | hx, hs⟩
        · exact absurd hv hs
        · exact ⟨hx, hs⟩
    · have hv : v ∉ seen := by simpa using h
      simp only [uniqFirstAux, if_neg h, List.mem_cons, ih, List.mem_cons]
      constructor
      · rintro (rfl | ⟨hx, hs⟩)
        · exact ⟨Or.inl rfl, hv⟩
        · exact ⟨Or.inr hx, fun hmem => hs (Or.inr hmem)⟩
      · rintro ⟨rfl | hx, hs⟩
        · exact Or.inl rfl
        · by_cases hxv : x = v
          · exact Or.inl hxv
          · exact Or.inr ⟨hx, fun hor => hor.elim hxv hs⟩

theorem uniqFirst_mem (l : List Value) (x : Value) : x ∈ uniqFirst l ↔ x ∈ l := by
  simpa using uniqFirstAux_mem [] l x


/-- C8: on a table with 3 timestamps in one hour and 7 in the next the
peak window is the hour with count 7; but on a non-empty table whose
timestamp values are all unparseable, every value coerces to NaT and the
resampling raises instead of skipping, so the insights section crashes
(the zero-parse guard of the script is unreachable). -/
theorem C8_peak_window :
    hourly expl37 = .ok [(0, 3), (1, 7)]
    ∧ peakWindow expl37 = .ok (some 1)
    ∧ parsedTimes explBadTs = []
    ∧ explBadTs.rows ≠ []
    ∧ hourly explBadTs = .error "Neither start nor end can be NaT"
    ∧ (insightsSection explBadTs).2 = false :=
  ⟨rfl, rfl, rfl, by decide, rfl, rfl⟩

theorem alertCard_headline (l : List Row) :
    (l.flatMap alertCard).filterMap alertHead = l.map headlineOf := by
  induction l with
  | nil => rfl
  | cons r rs ih =>
    simp [alertCard, alertHead, ih]

theorem alertCard_countP (l : List Row) :
    (l.flatMap alertCard).countP isAlertHead = l.length := by
  induction l with
  | nil => rfl
  | cons r rs ih =>
    simp [alertCard, isAlertHead, alertHead, List.countP_append, List.countP_cons, ih]

theorem lookup_eq_none_of_not_mem {r : Row} {c : String} (h : c ∉ r.map Prod.fst) :
    r.lookup c = none := by
  induction r with
  | nil => rfl
  | cons kv r ih =>
    obtain ⟨k, v⟩ := kv
    simp only [List.map_cons, List.mem_cons] at h
    push_neg at h
    have hne : (c == k) = false := beq_eq_false_iff_ne.mpr h.1
    simp [List.lookup, hne, ih h.2]

/-- C9 counterexample: a present-but-empty `summary` value is rendered
verbatim as the card headline instead of the placeholder, so the default
does not apply to empty values. -/
theorem C9_counterexample_empty_summary :
    (alertsSection explEmptySummary).filterMap alertHead = [""]
    ∧ headlineOf [("summary", Value.str "")] = ""
    ∧ ("" : String) ≠ "Suspicious request" := by
  decide

/-- C9 amended: a non-empty explanations table renders exactly
`min 5 row_count` alert cards, whose headlines are those of the first
rows in file order; the headline placeholder applies exactly when the
`summary` column is absent from the table (an empty or NaN value is
rendered verbatim), and `Method`, `URL`, `User-Agent` default to `-`
exactly when their column is absent; rendering is a total function, so a
missing column never aborts it. -/
theorem C9_alert_cards (expl : Table) (hWF : expl.WF) (hne : expl.rows ≠ []) :
    (alertsSection expl).filterMap alertHead = (expl.rows.take 5).map headlineOf
    ∧ (alertsSection expl).countP isAlertHead = min 5 expl.rows.length
    ∧ (∀ r ∈ expl.rows, "summary" ∉ expl.cols → headlineOf r = "Suspicious request")
    ∧ (∀ r ∈ expl.rows, ∀ c ∈ ["Method", "URL", "User-Agent"],
        c ∉ expl.cols → rowGet r c "-" = "-") := by
  have hsec : alertsSection expl = (expl.rows.take 5).flatMap alertCard := by
    simp [alertsSection, hne]
  refine ⟨?_, ?_, ?_, ?_⟩
  · rw [hsec]
    exact alertCard_headline _
  · rw [hsec, alertCard_countP, List.length_take]
  · intro r hr hsum
    have hkeys : "summary" ∉ r.map Prod.fst := by
      rw [hWF r hr]
      exact hsum
    simp [headlineOf, rowGet, lookup_eq_none_of_not_mem hkeys]
  · intro r hr c _ hcol
    have hkeys : c ∉ r.map Prod.fst := by
      rw [hWF r hr]
      exact hcol
    simp [rowGet, lookup_eq_none_of_not_mem hkeys]

/-- Witness for C9 at a well-formed two-row table without a `summary`
column: two cards, headlines defaulted. -/
theorem C9_alert_cards_witness :
    explXY.WF ∧ explXY.rows ≠ []
    ∧ (alertsSection explXY).countP isAlertHead = min 5 explXY.rows.length
    ∧ (alertsSection explXY).filterMap alertHead = (explXY.rows.take 5).map headlineOf :=
  ⟨by decide, by decide,
   (C9_alert_cards explXY (by decide) (by decide)).2.1,
   (C9_alert_cards explXY (by decide) (by decide)).1⟩

theorem predReady_rows (pred : Table) (h : predReady pred = true) :
    pred.rows.isEmpty = false := by
  simp only [predReady, Bool.and_eq_true, Bool.not_eq_true'] at h
  exact h.1.1

theorem rows_isEmpty_false (t : Table) (hne : t.rows ≠ []) :
    t.rows.isEmpty = false := by
  rcases h : t.rows with _ | ⟨r, rs⟩
  · exact absurd h hne
  · simp [h]

theorem accLabelsInt_mem (pred : Table) (hint : accLabelsInt pred = true) :
    ∀ v ∈ col pred "true_label" ++ col pred "predicted", isIntVal v = true := by
  rw [accLabelsInt, List.all_eq_true] at hint
  exact hint

theorem accSection_ols_sklearn (pred : Table) (h : predReady pred = true)
    (hint : accLabelsInt pred = true) :
    olsOk pred = true ∧ sklearnOk pred = true := by
  have hmem := accLabelsInt_mem pred hint
  have hnona : ∀ v ∈ col pred "true_label" ++ col pred "predicted",
      (v == Value.na) = false := by
    intro v hv
    have := hmem v hv
    cases v <;> simp_all [isIntVal]
  have hnostr : ∀ v ∈ col pred "true_label" ++ col pred "predicted",
      isStrVal v = false := by
    intro v hv
    have := hmem v hv
    cases v <;> simp_all [isIntVal, isStrVal]
  refine ⟨?_, ?_⟩
  · rw [olsOk, Bool.and_eq_true]
    constructor
    · rw [List.all_eq_true]
      intro v hv
      simp [hnostr v hv]
    · have hre := predReady_rows pred h
      rcases hrows : pred.rows with _ | ⟨r, rs⟩
      · rw [hrows] at hre
        simp at hre
      · rw [List.any_eq_true]
        refine ⟨(getCell r "true_label", getCell r "predicted"), ?_, ?_⟩
        · simp [acc_pairs, hrows]
        · have hm1 : getCell r "true_label"
              ∈ col pred "true_label" ++ col pred "predicted" := by
            simp [col, hrows]
          have hm2 : getCell r "predicted"
              ∈ col pred "true_label" ++ col pred "predicted" := by
            simp [col, hrows]
          simp [hnona _ hm1, hnona _ hm2]
  · rw [sklearnOk, List.all_eq_true]
    intro v hv
    simp [hnona v hv]

theorem accSection_ready (pred : Table) (perm : List Nat)
    (h : predReady pred = true) (hint : accLabelsInt pred = true)
    (h2 : (cmLabels pred).length = 2) :
    accSection pred perm
      = ([Item.metric "Model Accuracy" (accuracy pred),
          Item.scatter (sampleRows pred perm),
          Item.heatmap (confusion_matrix pred)], true) := by
  obtain ⟨hols, hskl⟩ := accSection_ols_sklearn pred h hint
  simp [accSection, h, hols, hskl, cm_df, h2]

theorem accSection_skipped (pred : Table) (perm : List Nat)
    (h : predReady pred = false) :
    accSection pred perm
      = ([Item.warningBanner "Prediction dataset not loaded or missing true_label / predicted columns."],
         true) := by
  simp [accSection, h]

theorem insightsSection_empty (expl : Table) (h : expl.rows = []) :
    insightsSection expl
      = ([Item.infoBanner "No GenAI explanations available yet."], true) := by
  simp [insightsSection, h]

theorem parsedTimes_ne_nil (expl : Table) (hne : expl.rows ≠ [])
    (ht : ∀ v ∈ col expl "timestamp", (parseTs v).isSome) :
    parsedTimes expl ≠ [] := by
  rcases hrows : expl.rows with _ | ⟨r, rs⟩
  · exact absurd hrows hne
  · have hcol : col expl "timestamp"
        = getCell r "timestamp" :: rs.map (fun r => getCell r "timestamp") := by
      simp [col, hrows]
    have hv : (parseTs (getCell r "timestamp")).isSome := by
      apply ht
      rw [hcol]
      exact List.mem_cons_self _ _
    rcases hpv : parseTs (getCell r "timestamp") with _ | t
    · rw [hpv] at hv
      simp at hv
    · simp [parsedTimes, hcol, List.filterMap_cons, hpv]

theorem col_isEmpty_false (expl : Table) (c : String) (hne : expl.rows ≠ []) :
    (col expl c).isEmpty = false := by
  rcases hrows : expl.rows with _ | ⟨r, rs⟩
  · exact absurd hrows hne
  · simp [col, hrows]

theorem hourly_ok (expl : Table) (hne : expl.rows ≠ [])
    (ht : ∀ v ∈ col expl "timestamp", (parseTs v).isSome) :
    ∃ hs, hourly expl = .ok hs := by
  have hcolne := col_isEmpty_false expl "timestamp" hne
  have hpt := parsedTimes_ne_nil expl hne ht
  rcases hpts : parsedTimes expl with _ | ⟨t, ts⟩
  · exact absurd hpts hpt
  · exact ⟨hourlyBuckets t ts, by simp [hourly, hcolne, hpts]⟩

theorem top_threats_strings (expl : Table)
    (h : ∀ v ∈ col expl "reasons", isStrVal v = true ∨ v = Value.na) :
    (top_threats expl).all isStrVal = true := by
  rw [List.all_eq_true]
  intro v hv
  obtain ⟨p, hp, rfl⟩ := List.mem_map.mp hv
  have hp2 : p ∈ value_counts (col expl "reasons") := List.mem_of_mem_take hp
  have hp3 : p ∈ withCounts (col expl "reasons") := (sortDesc_perm _).mem_iff.mp hp2
  obtain ⟨w, hw, rfl⟩ := List.mem_map.mp hp3
  have hw2 : w ∈ nonNA (col expl "reasons") := (uniqFirst_mem _ _).mp hw
  rw [nonNA, List.mem_filter] at hw2
  rcases h w hw2.1 with hstr | hna
  · simpa using hstr
  · subst hna
    simp at hw2

theorem insightsSection_ok (expl : Table) (hne : expl.rows ≠ [])
    (hr : expl.cols.contains "reasons" = true →
      ∀ v ∈ col expl "reasons", isStrVal v = true ∨ v = Value.na)
    (ht : expl.cols.contains "timestamp" = true →
      ∀ v ∈ col expl "timestamp", (parseTs v).isSome) :
    (insightsSection expl).2 = true := by
  have hrne : expl.rows.isEmpty = false := rows_isEmpty_false expl hne
  have hreason : (if expl.cols.contains "reasons" then
      match joinVals (top_threats expl) with
      | some s => ([Item.text ("Most common threats detected: " ++ s)], true)
      | none => (([] : List Item), false)
    else (([] : List Item), true)).2 = true := by
    cases hcr : expl.cols.contains "reasons"
    · simp
    · have hall := top_threats_strings expl (hr hcr)
      simp [joinVals, hall]
  have hts : (if expl.cols.contains "timestamp" then
      match hourly expl with
      | .error _ => (([] : List Item), false)
      | .ok hs =>
        (match idxmax hs with
         | some h => [Item.text ("Peak suspicious activity at: " ++ toString h)]
         | none => [], true)
    else (([] : List Item), true)).2 = true := by
    cases hct : expl.cols.contains "timestamp"
    · simp
    · obtain ⟨hs, hok⟩ := hourly_ok expl hne (ht hct)
      rw [hok]
      simp
  simp only [insightsSection, hrne, Bool.false_eq_true, if_false]
  rw [if_neg]
  · exact hts
  · rw [hreason]
    simp

theorem insightsSection_no_metric (expl : Table) (lbl : String) (q : ℚ) :
    Item.metric lbl q ∉ (insightsSection expl).1 := by
  unfold insightsSection
  repeat' split
  all_goals simp_all

theorem insightsSection_no_alertHead (expl : Table) :
    ∀ i ∈ (insightsSection expl).1, ¬ (isAlertHead i = true) := by
  unfold insightsSection
  repeat' split
  all_goals intro i hi
  all_goals simp_all [isAlertHead, alertHead]
  all_goals rcases hi with rfl | rfl | rfl <;> rfl

theorem alertsSection_no_metric (expl : Table) (lbl : String) (q : ℚ) :
    Item.metric lbl q ∉ alertsSection expl := by
  unfold alertsSection
  split
  · simp
  · intro hmem
    rcases List.mem_flatMap.mp hmem with ⟨r, _, hr⟩
    simp [alertCard] at hr

theorem render_eq_of_ok (full expl pred : Table) (perm : List Nat)
    (hfull : full.rows.isEmpty = false)
    (hacc : (accSection pred perm).2 = true)
    (hins : (insightsSection expl).2 = true) :
    render full expl pred perm =
      ([Item.title "MSME Cybersecurity Insights",
        Item.caption "Business-friendly security insights based on anomaly detection + GenAI explanations"]
       ++ (if expl.rows.isEmpty then
            [Item.warningBanner "No explained anomalies file loaded. Some insights may be missing."]
          else [])
       ++ (if pred.rows.isEmpty then
            [Item.warningBanner "No prediction results file loaded. Accuracy analysis may be missing."]
          else [])
       ++ [Item.metric "Total Requests" (total full : ℚ),
           Item.metric "Detected Anomalies" (total_anoms full expl : ℚ),
           Item.metric "Anomaly Rate" (anom_rate full expl)]
       ++ [Item.subheader "Traffic Mix",
           Item.pie (total_norms full expl) (total_anoms full expl : Int)]
       ++ [Item.subheader "Model Accuracy & Regression Plot"]
       ++ (accSection pred perm).1
       ++ [Item.subheader "Key Insights (From Explained Anomalies)"]
       ++ (insightsSection expl).1
       ++ [Item.subheader "Recommended Actions", Item.text "static recommended actions"]
       ++ [Item.subheader "Sample Alerts (Top 5)"]
       ++ alertsSection expl, Outcome.completed) := by
  simp [render, hfull, hacc, hins]

/-- C5 counterexample: with a loaded primary table, an empty explanations
table and a ready predictions table holding a single distinct label, the
pass crashes inside the accuracy section, so the insights and alerts
notices are never emitted — the explanations-empty branch is not
independent of the predictions data.  Likewise, with empty predictions
and a non-empty explanations table whose timestamps are all unparseable,
or whose reasons are integers, the pass crashes in the insights section
instead of rendering everything else. -/
theorem C5_counterexample_crash :
    (render full0 emptyTable predSingle []).2 = Outcome.crashed
    ∧ Item.infoBanner "No GenAI explanations available yet."
        ∉ (render full0 emptyTable predSingle []).1
    ∧ Item.successBanner "No anomaly explanations to show."
        ∉ (render full0 emptyTable predSingle []).1
    ∧ (render full0 explBadTs emptyTable []).2 = Outcome.crashed
    ∧ (render full0 explIntReasons emptyTable []).2 = Outcome.crashed := by
  refine ⟨rfl, by decide, by decide, rfl, rfl⟩

/-- C5 amended: the degradation policy is three-way up to uncaught
section crashes.  (1) An empty primary table halts the pass after the
page header with only the error banner.  (2) With the primary table
loaded, an empty explanations table and a ready predictions table whose
accuracy section succeeds end to end — all label values integers (so the
OLS trendline fit and the sklearn target validation go through) and
exactly two distinct labels (so the 2 by 2 labelling goes through) — the
pass completes: metrics, pie, accuracy metric, scatter and heatmap all
render and the insights and alerts sections reduce to their notices with
no alert card.  (3) With primary and explanations loaded and the
predictions table empty or lacking the required columns, provided insight
extraction itself cannot crash (every non-NaN `reasons` value a string,
fully parseable timestamps, when those columns are present), the pass
completes with the accuracy section replaced by its warning banner, no
accuracy metric anywhere, and everything else rendered including
`min 5 n` alert cards. -/
theorem C5_degradation_policy (full expl pred : Table) (perm : List Nat) :
    (full.rows = [] →
      render full expl pred perm
        = ([Item.title "MSME Cybersecurity Insights",
            Item.caption "Business-friendly security insights based on anomaly detection + GenAI explanations",
            Item.errorBanner "Could not load full dataset."], Outcome.stopped))
    ∧ (full.rows ≠ [] → expl.rows = [] → predReady pred = true →
       accLabelsInt pred = true → (cmLabels pred).length = 2 →
        (render full expl pred perm).2 = Outcome.completed
        ∧ Item.metric "Total Requests" (total full : ℚ) ∈ (render full expl pred perm).1
        ∧ Item.metric "Anomaly Rate" (anom_rate full expl) ∈ (render full expl pred perm).1
        ∧ Item.pie (total_norms full expl) (total_anoms full expl : Int)
            ∈ (render full expl pred perm).1
        ∧ Item.metric "Model Accuracy" (accuracy pred) ∈ (render full expl pred perm).1
        ∧ Item.scatter (sampleRows pred perm) ∈ (render full expl pred perm).1
        ∧ Item.heatmap (confusion_matrix pred) ∈ (render full expl pred perm).1
        ∧ Item.infoBanner "No GenAI explanations available yet."
            ∈ (render full expl pred perm).1
        ∧ Item.successBanner "No anomaly explanations to show."
            ∈ (render full expl pred perm).1
        ∧ (render full expl pred perm).1.countP isAlertHead = 0)
    ∧ (full.rows ≠ [] → expl.rows ≠ [] → predReady pred = false →
       (expl.cols.contains "reasons" = true →
         ∀ v ∈ col expl "reasons", isStrVal v = true ∨ v = Value.na) →
       (expl.cols.contains "timestamp" = true →
         ∀ v ∈ col expl "timestamp", (parseTs v).isSome) →
        (render full expl pred perm).2 = Outcome.completed
        ∧ Item.warningBanner "Prediction dataset not loaded or missing true_label / predicted columns."
            ∈ (render full expl pred perm).1
        ∧ (∀ q : ℚ, Item.metric "Model Accuracy" q ∉ (render full expl pred perm).1)
        ∧ Item.metric "Total Requests" (total full : ℚ) ∈ (render full expl pred perm).1
        ∧ Item.metric "Anomaly Rate" (anom_rate full expl) ∈ (render full expl pred perm).1
        ∧ Item.pie (total_norms full expl) (total_anoms full expl : Int)
            ∈ (render full expl pred perm).1
        ∧ Item.subheader "Key Insights (From Explained Anomalies)" ∈ (render full expl pred perm).1
        ∧ (render full expl pred perm).1.countP isAlertHead = min 5 expl.rows.length) := by
  refine ⟨fun hf => ?_, fun hf he hp hint hcm => ?_, fun hf he hp hr ht => ?_⟩
  · have hfe : full.rows.isEmpty = true := by simp [hf]
    simp [render, hfe]
  · have hfe := rows_isEmpty_false full hf
    have hee : expl.rows.isEmpty = true := by simp [he]
    have hpe := predReady_rows pred hp
    have hacc := accSection_ready pred perm hp hint hcm
    have hins := insightsSection_empty expl he
    rw [render_eq_of_ok full expl pred perm hfe (by rw [hacc]) (by rw [hins])]
    rw [hacc, hins]
    refine ⟨rfl, ?_, ?_, ?_, ?_, ?_, ?_, ?_, ?_, ?_⟩ <;>
      simp [hee, hpe, alertsSection, he, isAlertHead, alertHead, List.countP_append,
        List.countP_cons]
  · have hfe := rows_isEmpty_false full hf
    have hee := rows_isEmpty_false expl he
    have hacc := accSection_skipped pred perm hp
    have hins := insightsSection_ok expl he hr ht
    have hinsz : (insightsSection expl).1.countP isAlertHead = 0 :=
      List.countP_eq_zero.mpr (insightsSection_no_alertHead expl)
    have hinsm := insightsSection_no_metric expl "Model Accuracy"
    have halm := alertsSection_no_metric expl "Model Accuracy"
    have halerts : alertsSection expl = (expl.rows.take 5).flatMap alertCard := by
      simp [alertsSection, he]
    rw [render_eq_of_ok full expl pred perm hfe (by rw [hacc]) hins]
    rw [hacc]
    refine ⟨rfl, ?_, ?_, ?_, ?_, ?_, ?_, ?_⟩
    · rcases hpi : pred.rows.isEmpty <;> simp [hee, hpi]
    · intro q
      rcases hpi : pred.rows.isEmpty <;>
        simp [hee, hpi, List.mem_append, hinsm q, halm q]
    · rcases hpi : pred.rows.isEmpty <;> simp [hee, hpi]
    · rcases hpi : pred.rows.isEmpty <;> simp [hee, hpi]
    · rcases hpi : pred.rows.isEmpty <;> simp [hee, hpi]
    · rcases hpi : pred.rows.isEmpty <;> simp [hee, hpi]
    · rw [halerts]
      rcases hpi : pred.rows.isEmpty <;>
        simp [hee, hpi, List.countP_append, List.countP_cons, alertCard_countP,
          List.length_take, hinsz, isAlertHead, alertHead]

/-- Witness for C5: the three branch hypotheses are satisfiable and the
empty-explanations branch completes with both notices shown. -/
theorem C5_degradation_policy_witness :
    full0.rows ≠ [] ∧ predReady predCM = true ∧ accLabelsInt predCM = true
    ∧ (cmLabels predCM).length = 2
    ∧ (render full0 emptyTable predCM [0, 1, 2, 3]).2 = Outcome.completed
    ∧ Item.successBanner "No anomaly explanations to show."
        ∈ (render full0 emptyTable predCM [0, 1, 2, 3]).1
    ∧ Item.infoBanner "No GenAI explanations available yet."
        ∈ (render full0 emptyTable predCM [0, 1, 2, 3]).1 :=
  ⟨by decide, by decide, by decide, by decide,
   ((C5_degradation_policy full0 emptyTable predCM [0, 1, 2, 3]).2.1
      (by decide) rfl (by decide) (by decide) (by decide)).1,
   ((C5_degradation_policy full0 emptyTable predCM [0, 1, 2, 3]).2.1
      (by decide) rfl (by decide) (by decide) (by decide)).2.2.2.2.2.2.2.2.1,
   ((C5_degradation_policy full0 emptyTable predCM [0, 1, 2, 3]).2.1
      (by decide) rfl (by decide) (by decide) (by decide)).2.2.2.2.2.2.2.1⟩

/-- C10: in the fallback tier (primary table lacking both label columns)
the anomaly count is the explanations row count; when that exceeds the
primary row count the normal count is negative and the anomaly rate
exceeds 100 percent, and the pie chart and rate metric render exactly
these unclamped values. -/
theorem C10_fallback_inversion (full expl pred : Table) (perm : List Nat)
    (hne : full.rows ≠ [])
    (hp : "predicted" ∉ full.cols) (hc : "classification" ∉ full.cols)
    (hlt : full.rows.length < expl.rows.length) :
    total_anoms full expl = expl.rows.length
    ∧ total_norms full expl < 0
    ∧ 100 < anom_rate full expl
    ∧ Item.metric "Anomaly Rate" (anom_rate full expl) ∈ (render full expl pred perm).1
    ∧ Item.pie (total_norms full expl) (total_anoms full expl : Int)
        ∈ (render full expl pred perm).1 := by
  have hanoms : total_anoms full expl = expl.rows.length := by
    simp [total_anoms, hp, hc]
  have ht : 0 < total full := List.length_pos.mpr hne
  have ha : total full < total_anoms full expl := by
    rw [hanoms]
    exact hlt
  have hrate : anom_rate full expl
      = (total_anoms full expl : ℚ) / (total full : ℚ) * 100 := by
    simp [anom_rate, ht]
  have hfe := rows_isEmpty_false full hne
  have hmem : ∀ x : Item,
      x ∈ [Item.metric "Total Requests" (total full : ℚ),
           Item.metric "Detected Anomalies" (total_anoms full expl : ℚ),
           Item.metric "Anomaly Rate" (anom_rate full expl),
           Item.subheader "Traffic Mix",
           Item.pie (total_norms full expl) (total_anoms full expl : Int)] →
      x ∈ (render full expl pred perm).1 := by
    intro x hx
    unfold render
    simp only [hfe, Bool.false_eq_true, if_false]
    repeat' split
    all_goals simp_all [List.mem_append]
    all_goals tauto
  refine ⟨hanoms, ?_, ?_, ?_, ?_⟩
  · simp only [total_norms]
    omega
  · have h1 : (1 : ℚ) < (total_anoms full expl : ℚ) / (total full : ℚ) := by
      rw [one_lt_div (by exact_mod_cast ht)]
      exact_mod_cast ha
    calc (100 : ℚ) = 1 * 100 := (one_mul 100).symm
      _ < ((total_anoms full expl : ℚ) / (total full : ℚ)) * 100 :=
          mul_lt_mul_of_pos_right h1 (by norm_num)
      _ = anom_rate full expl := hrate.symm
  · exact hmem _ (by simp)
  · exact hmem _ (by simp)

/-- Witness for C10: one uncategorised primary row against five explained
anomalies gives anomaly count 5, normal count -4 and rate 500 percent. -/
theorem C10_fallback_inversion_witness :
    fullNoCols.rows ≠ [] ∧ "predicted" ∉ fullNoCols.cols
    ∧ "classification" ∉ fullNoCols.cols
    ∧ fullNoCols.rows.length < explXY.rows.length
    ∧ total_anoms fullNoCols explXY = 5
    ∧ total_norms fullNoCols explXY < 0
    ∧ 100 < anom_rate fullNoCols explXY :=
  ⟨by decide, by decide, by decide, by decide, by decide,
   (C10_fallback_inversion fullNoCols explXY emptyTable []
      (by decide) (by decide) (by decide) (by decide)).2.1,
   (C10_fallback_inversion fullNoCols explXY emptyTable []
      (by decide) (by decide) (by decide) (by decide)).2.2.1⟩

end RiskApp
